import Mathlib

/-!
Shallow embedding of the query-matching and conversation-state component of
`streamlit_app.py` (the Verified-Query Matcher, Conversation Context Tracker,
Response Interpreter and Session/Chat Orchestrator), together with theorems
settling the specification claims about it.

External collaborators (the Snowflake REST transport, the YAML/JSON parsers,
pandas execution results, chart rendering) are modelled as explicit inputs:
the transport response and the outcome of each external parse are data of the
environment, and SQL execution is an explicit function argument.  Wall-clock
timestamps are not modelled (no claim mentions them).
-/

namespace VikSnow

/-- Python `s.lower()`: lower-case every character. -/
def pyLower (s : String) : String := ⟨s.data.map Char.toLower⟩

/-- Python `s.strip()`: drop leading and trailing whitespace. -/
def pyStrip (s : String) : String :=
  ⟨((s.data.dropWhile Char.isWhitespace).reverse.dropWhile Char.isWhitespace).reverse⟩

/-- Python-style normalization used throughout the matcher:
`s.lower().strip()`. -/
def pyNorm (s : String) : String := pyStrip (pyLower s)

/-- `pat` occurs as a contiguous sublist of `s`. -/
def infixOfList (pat s : List Char) : Bool :=
  match s with
  | [] => pat.isEmpty
  | _ :: rest => pat.isPrefixOf s || infixOfList pat rest

/-- Python `pat in s` substring test. -/
def containsSub (s pat : String) : Bool := infixOfList pat.toList s.toList

/-- One entry of the verified-query catalog parsed from the semantic-model
YAML.  Field defaults mirror the `vq.get(key, default)` accesses in
`try_match_verified_query`: a missing `question`/`sql` reads as `""`, missing
`synonyms` as `[]`, and a missing `name` compares unequal to any literal, so
it is modelled as `""` as well. -/
structure VerifiedQuery where
  name : String := ""
  question : String := ""
  synonyms : List String := []
  sql : String := ""
deriving Repr, DecidableEq

/-- The body of one iteration of the `for vq in verified_queries` loop in
`try_match_verified_query` (streamlit_app.py lines 856-870): check the
entry's question, then its synonyms in order, then the hard-coded
keyword-pair fallback; the first check that fires returns this entry's
stripped `sql`. -/
def matchEntry (userLower : String) (vq : VerifiedQuery) : Option String :=
  let question := pyNorm vq.question
  if question ≠ "" ∧ question = userLower then
    some (pyStrip vq.sql)
  else if vq.synonyms.any (fun s => pyNorm s = userLower) then
    some (pyStrip vq.sql)
  else if containsSub userLower "sentiment" ∧ containsSub userLower "issue"
      ∧ vq.name = "sentiment_by_issue_type" then
    some (pyStrip vq.sql)
  else
    none

/-- `try_match_verified_query` (streamlit_app.py lines 843-874).
`catalog = none` models every path on which the semantic model cannot be
read or parsed (the surrounding `try` returns `None`); `some vqs` is the
parsed `verified_queries` list (`[]` when the key is absent).  The loop
returns the first entry on which any of the three per-entry checks fires. -/
def try_match_verified_query (catalog : Option (List VerifiedQuery))
    (user_input : String) : Option String :=
  match catalog with
  | none => none
  | some vqs => vqs.findSome? (matchEntry (pyNorm user_input))

/-! ## Response Interpreter: `query_cortex_analyst_rest_api` -/

/-- One item of a `content` list inside a request or response message, i.e. a
Python dict such as `{"type": "text", "text": ...}` or
`{"type": "sql", "statement": ...}`. -/
inductive CtxItem where
  | text (s : String)
  | sqlStmt (statement : String)
deriving Repr, DecidableEq

/-- One role-tagged message of the Conversation Context, mirroring the remote
service's request shape: `{"role": ..., "content": [...]}`. -/
structure CtxBlock where
  role : String
  content : List CtxItem
deriving Repr, DecidableEq

/-- One block of the `message.content` list of a successful analyst response.
`other` covers both list items that are not dicts (skipped by the
`isinstance(block, dict)` guard) and dicts whose `type` is none of
`text`/`sql`/`suggestions` (no dispatch arm fires).  The payload of each
recognized constructor is the value after the Python default is applied
(`block.get("text", "")`, `block.get("statement", "")`,
`block.get("suggestions", [])`). -/
inductive Block where
  | text (s : String)
  | sql (statement : String)
  | suggestions (items : List String)
  | other
deriving Repr, DecidableEq

/-- The `content` value found inside `response_data["message"]`: either a
list of blocks or some non-list value (whose Python type name feeds the
"expected list" error message). -/
inductive ContentVal where
  | list (blocks : List Block)
  | nonList (tyName : String)
deriving Repr, DecidableEq

/-- The value of a `message` key: `contentVal` is present iff
`"content" in response_data["message"]`; `asStr` is how the value prints when
interpolated into the non-200 error message (`f": {content['message']}"`). -/
structure MsgVal where
  contentVal : Option ContentVal
  asStr : String := ""
deriving Repr, DecidableEq

/-- A structured (dict) response body.  `message = none` models
`"message" not in response_data`; `response_metadata` and `warnings` hold the
values of `response_data.get("response_metadata", {})` (rendered opaquely as
a string) and `response_data.get("warnings", [])`. -/
structure RespData where
  message : Option MsgVal
  response_metadata : String := ""
  warnings : List String := []
deriving Repr, DecidableEq

/-- A parsed JSON value at the top level of the body: a dict, or something
else (whose Python type name feeds the "expected dict" error message). -/
inductive JsonVal where
  | dict (d : RespData)
  | nonDict (tyName : String)
deriving Repr, DecidableEq

/-- The `content` field of the transport response `resp`.  A string body
carries the outcome of `json.loads` on it (`Except.error e` models
`json.JSONDecodeError` with message `e`); any non-string body is used
directly.  A missing `content` key is Python's default `{}`, i.e.
`already (.dict { message := none })`. -/
inductive RespContent where
  | str (raw : String) (parsed : Except String JsonVal)
  | already (v : JsonVal)
deriving Repr

/-- The transport-level response of `_snowflake.send_snow_api_request`.
`status = none` models a response without a `status` key (printed as
"unknown" in the error message). -/
structure ApiResp where
  status : Option Nat
  content : RespContent
deriving Repr

/-- The environment of one call to `query_cortex_analyst_rest_api`:
`semanticModel` is the result of `read_semantic_model_from_stage()` (that
helper catches its own exceptions and returns `None`), `raised` models an
exception escaping from inside the `try` body (e.g. a transport fault in
`send_snow_api_request`), and `resp` is the transport response otherwise. -/
structure ApiEnv where
  semanticModel : Option String
  raised : Option String := none
  resp : ApiResp
deriving Repr

/-- The dictionary returned by `query_cortex_analyst_rest_api`.  Each field
is `some v` iff the corresponding key is present in the returned dict. -/
structure CAResponse where
  error : Option String := none
  text : Option String := none
  sql : Option String := none
  suggestions : Option (List String) := none
  response_metadata : Option String := none
  warnings : Option (List String) := none
deriving Repr, DecidableEq

/-- An error return `{"error": msg}` (no other keys). -/
def errResp (msg : String) : CAResponse := { error := some msg }

/-- The initial `result` dict built on the success path (streamlit_app.py
lines 201-207), before the content blocks are walked. -/
def initResult (d : RespData) : CAResponse :=
  { error := none, text := some "", sql := some "", suggestions := some [],
    response_metadata := some d.response_metadata, warnings := some d.warnings }

/-- One iteration of the `for block in content` dispatch (lines 213-220):
recognized block types overwrite their field (last write wins); `other`
blocks leave the result untouched. -/
def applyBlock (r : CAResponse) (b : Block) : CAResponse :=
  match b with
  | .text s => { r with text := some s }
  | .sql st => { r with sql := some st }
  | .suggestions l => { r with suggestions := some l }
  | .other => r

/-- The request `messages` array (lines 144-159): the caller's conversation
history followed by the current question as a single-text-block user turn. -/
def buildRequestMessages (conversation_history : List CtxBlock)
    (question : String) : List CtxBlock :=
  conversation_history ++ [⟨"user", [CtxItem.text question]⟩]

/-- The status string used in the non-200 error message: the status code, or
"unknown" when the `status` key is absent. -/
def statusStr (status : Option Nat) : String :=
  match status with
  | some n => toString n
  | none => "unknown"

/-- The error message of the non-200 branch (lines 225-239): a fixed prefix
with the status, extended with `content["message"]` when the body is a dict
carrying a `message` key, or with the body itself when it is a string. -/
def transportErrMsg (resp : ApiResp) : String :=
  let base := "API request failed with status " ++ statusStr resp.status
  match resp.content with
  | .str raw _ => base ++ ": " ++ raw
  | .already (.dict d) =>
    match d.message with
    | some m => base ++ ": " ++ m.asStr
    | none => base
  | .already (.nonDict _) => base

/-- The structured body obtained from `resp.get("content", {})` on the
success path: a string body goes through `json.loads` (whose outcome the
environment carries), any other body is used directly (lines 183-190). -/
def parsedBody (c : RespContent) : Except String JsonVal :=
  match c with
  | .str _ p => p
  | .already v => Except.ok v

/-- `query_cortex_analyst_rest_api` (streamlit_app.py lines 135-242).  The
request assembly is kept for fidelity; the remote service itself is opaque,
so the transport response is part of the environment. -/
def query_cortex_analyst_rest_api (question : String)
    (conversation_history : List CtxBlock) (env : ApiEnv) : CAResponse :=
  match env.semanticModel with
  | none =>
    errResp "Could not read semantic model YAML from stage. Please ensure the YAML file is uploaded to the stage and contains valid content."
  | some ym =>
    if ym = "" then
      errResp "Could not read semantic model YAML from stage. Please ensure the YAML file is uploaded to the stage and contains valid content."
    else
      let _messages := buildRequestMessages conversation_history question
      match env.raised with
      | some e => errResp ("Unexpected error calling Cortex Analyst API: " ++ e)
      | none =>
        if env.resp.status = some 200 then
          match parsedBody env.resp.content with
          | .error e => errResp ("Failed to parse JSON response: " ++ e)
          | .ok (.nonDict ty) =>
            errResp ("Unexpected response format: expected dict, got " ++ ty)
          | .ok (.dict d) =>
            match d.message with
            | none => errResp "Invalid response format from Cortex Analyst"
            | some m =>
              match m.contentVal with
              | none => errResp "Invalid response format from Cortex Analyst"
              | some (.nonList ty) =>
                errResp ("Unexpected content format: expected list, got " ++ ty)
              | some (.list blocks) => blocks.foldl applyBlock (initResult d)
        else
          errResp (transportErrMsg env.resp)

/-! ## Conversation state and the Session/Chat Orchestrator -/

/-- The pandas DataFrame returned by `execute_sql_query`, abstracted to the
observations the orchestrator makes of it: `len(df)` (`rows`),
`len(df.columns)` (`cols`), whether the last column is numeric (the chart
guard), and `df.iloc[0, 0]` rendered as text (`firstCell`, used in the
single-cell result message). -/
structure Table where
  rows : Nat
  cols : Nat
  lastColNumeric : Bool := false
  firstCell : String := ""
deriving Repr, DecidableEq

/-- One entry of `st.session_state.chat_history`.  `chart` records whether a
chart was attached (chart construction is best-effort in the source: a
`try/except: pass` swallows any plotting failure, so `chart = true` models
the attempt succeeding whenever its guard condition holds).  Timestamps are
wall-clock strings in the source and are not modelled. -/
structure ChatMsg where
  role : String
  content : String
  data : Option Table := none
  sql : Option String := none
  chart : Bool := false
deriving Repr, DecidableEq

/-- The per-session mutable state initialized by `unified_chat_interface`
(lines 575-578): the transcript and the Conversation Context. -/
structure ChatState where
  chat_history : List ChatMsg := []
  conversation_context : List CtxBlock := []
deriving Repr, DecidableEq

/-- `add_user_message` (lines 744-750). -/
def add_user_message (st : ChatState) (content : String) : ChatState :=
  { st with chat_history := st.chat_history ++ [{ role := "user", content := content }] }

/-- `add_assistant_message` (lines 876-882). -/
def add_assistant_message (st : ChatState) (content : String) : ChatState :=
  { st with chat_history := st.chat_history ++ [{ role := "assistant", content := content }] }

/-- `update_conversation_context` (lines 884-892): extend the context with a
user block holding the raw input and an analyst block holding one text and
one sql item, defaulting to `""` when the response lacks the key. -/
def update_conversation_context (ctx : List CtxBlock) (user_input : String)
    (response : CAResponse) : List CtxBlock :=
  ctx ++
    [⟨"user", [CtxItem.text user_input]⟩,
     ⟨"analyst", [CtxItem.text (response.text.getD ""),
                  CtxItem.sqlStmt (response.sql.getD "")]⟩]

/-- Python truthiness of an optional string (`if response.get('sql'):`):
the key is present and its value non-empty. -/
def strTruthy (o : Option String) : Bool :=
  match o with
  | some s => s ≠ ""
  | none => false

/-- Python truthiness of an optional list (`if response.get('suggestions'):`). -/
def listTruthy (o : Option (List String)) : Bool :=
  match o with
  | some l => l ≠ []
  | none => false

/-- The data-bearing transcript entry built on a verified-query hit with a
non-empty result (lines 762-789), chart attached when `len(df.columns) >= 2`
and the last column is numeric. -/
def verifiedHitMsg (vsql : String) (df : Table) : ChatMsg :=
  { role := "assistant", content := "📋 Using verified query - here's your data:",
    data := some df, sql := some vsql,
    chart := decide (2 ≤ df.cols ∧ df.lastColNumeric = true) }

/-- The data-bearing transcript entry built on the remote path with a
non-empty result (lines 803-829): a single-cell result is rendered inline,
and a chart is attached when the frame has exactly two columns, more than
one row and a numeric second (= last) column. -/
def remoteDataMsg (rsql : String) (df : Table) : ChatMsg :=
  { role := "assistant",
    content :=
      if df.rows = 1 ∧ df.cols = 1 then "📊 Result: **" ++ df.firstCell ++ "**"
      else "📋 Here's your data:",
    data := some df, sql := some rsql,
    chart := decide (df.cols = 2 ∧ 1 < df.rows ∧ df.lastColNumeric = true) }

/-- The second assistant turn listing suggestions (lines 839-841). -/
def suggestionsMsg (items : List String) : String :=
  "💡 **Suggestions:**\n" ++ String.intercalate "\n" (items.map (fun s => "• " ++ s))

/-- The outcome of one `process_user_message` call: the new session state,
whether the remote analyst service was called, and the SQL strings passed to
`execute_sql_query`, in order. -/
structure StepResult where
  state : ChatState
  remoteCalled : Bool
  executed : List String
deriving Repr, DecidableEq

/-- The remote-fallback tail of `process_user_message` (lines 792-841),
reached when no verified query hit produced a non-empty result.
`executedSoFar` carries a verified SQL already executed before falling
through. -/
def remoteFallback (execSql : String → Table)
    (remote : String → List CtxBlock → CAResponse)
    (st : ChatState) (user_input : String) (executedSoFar : List String) :
    StepResult :=
  let response := remote user_input st.conversation_context
  match response.error with
  | some e =>
    { state := add_assistant_message st ("❌ Error: " ++ e),
      remoteCalled := true, executed := executedSoFar }
  | none =>
    let afterMain :=
      if strTruthy response.sql then
        let rsql := response.sql.getD ""
        let df := execSql rsql
        if df.rows > 0 then
          ({ st with
              chat_history := st.chat_history ++ [remoteDataMsg rsql df],
              conversation_context :=
                update_conversation_context st.conversation_context user_input response },
           executedSoFar ++ [rsql])
        else
          (add_assistant_message st "🔍 No data found. Try rephrasing your question.",
           executedSoFar ++ [rsql])
      else
        (add_assistant_message st
          (response.text.getD "🤔 Couldn't generate a query. Try being more specific."),
         executedSoFar)
    let afterSugg :=
      if listTruthy response.suggestions then
        add_assistant_message afterMain.1 (suggestionsMsg (response.suggestions.getD []))
      else afterMain.1
    { state := afterSugg, remoteCalled := true, executed := afterMain.2 }

/-- `process_user_message` (lines 752-841).  `catalog` feeds the matcher,
`execSql` is the data-executor collaborator and `remote` the remote analyst
service (given the question and the conversation history, as in line 793).
A truthy verified match is executed first; only a non-empty result set
short-circuits the remote fallback (the `return` at line 790 sits inside
`if len(df) > 0`). -/
def process_user_message (catalog : Option (List VerifiedQuery))
    (execSql : String → Table) (remote : String → List CtxBlock → CAResponse)
    (st : ChatState) (user_input : String) : StepResult :=
  match try_match_verified_query catalog user_input with
  | some vsql =>
    if vsql ≠ "" then
      let df := execSql vsql
      if df.rows > 0 then
        { state := { st with chat_history := st.chat_history ++ [verifiedHitMsg vsql df] },
          remoteCalled := false, executed := [vsql] }
      else
        remoteFallback execSql remote st user_input [vsql]
    else
      remoteFallback execSql remote st user_input []
  | none => remoteFallback execSql remote st user_input []

/-! ## Helper lemmas -/

/-- `findSome?` returns the first hit: if `f` fails on every element of a
prefix and succeeds on the next element, that value is the result. -/
lemma findSome?_first {α β : Type} (f : α → Option β) (pre : List α) (e : α)
    (post : List α) (s : β) (hpre : ∀ x ∈ pre, f x = none) (he : f e = some s) :
    (pre ++ e :: post).findSome? f = some s := by
  induction pre with
  | nil => simp [List.findSome?, he]
  | cons a l ih =>
    have ha : f a = none := hpre a (by simp)
    simp only [List.cons_append, List.findSome?, ha]
    exact ih fun x hx => hpre x (by simp [hx])

/-- An entry whose normalized question is non-empty and equals the normalized
user text matches at the first per-entry stage. -/
lemma matchEntry_of_question (w : String) (e : VerifiedQuery)
    (hq0 : pyNorm e.question ≠ "") (hq : pyNorm e.question = w) :
    matchEntry w e = some (pyStrip e.sql) := by
  unfold matchEntry
  rw [if_pos ⟨hq0, hq⟩]

/-- An entry one of whose normalized synonyms equals the normalized user
text matches within the per-entry checks (at the question stage if that also
fires, otherwise at the synonym stage) — in either case returning this
entry's stripped sql. -/
lemma matchEntry_of_synonym (w : String) (e : VerifiedQuery)
    (hsyn : ∃ s ∈ e.synonyms, pyNorm s = w) :
    matchEntry w e = some (pyStrip e.sql) := by
  have hany : e.synonyms.any (fun s => pyNorm s = w) = true := by
    rcases hsyn with ⟨s, hs, hsw⟩
    simp only [List.any_eq_true, decide_eq_true_eq]
    exact ⟨s, hs, hsw⟩
  unfold matchEntry
  simp [hany]

/-! ## Claim C2 -/

/-- C2 is false on the code: with a catalog whose first entry carries the
synonym "q" (sql "SQL0") and whose second entry's question is "q"
(sql "SQL1"), the user text "q" matches the second entry's question, yet the
matcher returns the first entry's sql, because the loop checks question and
synonyms entry by entry, not in two global passes. -/
theorem c2_counterexample :
    pyNorm (VerifiedQuery.question ⟨"", "q", [], "SQL1"⟩) = pyNorm "q" ∧
    pyNorm (VerifiedQuery.question ⟨"", "q", [], "SQL1"⟩) ≠ "" ∧
    try_match_verified_query
      (some [⟨"", "", ["q"], "SQL0"⟩, ⟨"", "q", [], "SQL1"⟩]) "q" = some "SQL0" ∧
    some "SQL0" ≠ some (pyStrip (VerifiedQuery.sql ⟨"", "q", [], "SQL1"⟩)) := by
  decide

/-- C2 amended: the matcher scans entries in catalog order and applies all
three checks (question, synonyms, keyword fallback) within each entry before
moving on; the first entry with any hit wins.  In particular an earlier
entry matched through a synonym takes precedence over any later entry — no
matter what entries (question matches included) follow in `post`. -/
theorem c2_per_entry_scan (u : String) (pre : List VerifiedQuery)
    (e : VerifiedQuery) (post : List VerifiedQuery)
    (hpre : ∀ x ∈ pre, matchEntry (pyNorm u) x = none)
    (hsyn : ∃ s ∈ e.synonyms, pyNorm s = pyNorm u) :
    try_match_verified_query (some (pre ++ e :: post)) u = some (pyStrip e.sql) := by
  unfold try_match_verified_query
  exact findSome?_first _ pre e post _ hpre (matchEntry_of_synonym _ e hsyn)

/-- Witness for `c2_per_entry_scan`: the counterexample catalog, where the
later entry's question also matches the text. -/
theorem c2_per_entry_scan_witness :
    try_match_verified_query
      (some [⟨"", "", ["q"], "SQL0"⟩, ⟨"", "q", [], "SQL1"⟩]) "q"
      = some (pyStrip (VerifiedQuery.sql ⟨"", "", ["q"], "SQL0"⟩)) :=
  c2_per_entry_scan "q" [] ⟨"", "", ["q"], "SQL0"⟩ [⟨"", "q", [], "SQL1"⟩]
    (by intro x hx; cases hx) ⟨"q", by decide, by decide⟩

/-! ## Claim C5 -/

/-- C5: if the normalized text contains both trigger keywords and no entry's
question or synonym matches it literally, the matcher returns exactly the
stripped sql of the first catalog entry named `sentiment_by_issue_type` —
and `none` when no entry has that name. -/
theorem c5_keyword_fallback (vqs : List VerifiedQuery) (u : String)
    (hkw1 : containsSub (pyNorm u) "sentiment" = true)
    (hkw2 : containsSub (pyNorm u) "issue" = true)
    (hnoq : ∀ vq ∈ vqs, ¬(pyNorm vq.question ≠ "" ∧ pyNorm vq.question = pyNorm u))
    (hnos : ∀ vq ∈ vqs, ∀ s ∈ vq.synonyms, pyNorm s ≠ pyNorm u) :
    try_match_verified_query (some vqs) u
      = (vqs.find? (fun vq => vq.name = "sentiment_by_issue_type")).map
          (fun vq => pyStrip vq.sql) := by
  unfold try_match_verified_query
  induction vqs with
  | nil => rfl
  | cons vq l ih =>
    have hq := hnoq vq (List.mem_cons_self vq l)
    have hs := hnos vq (List.mem_cons_self vq l)
    have hany : vq.synonyms.any (fun s => pyNorm s = pyNorm u) = false := by
      by_contra h
      rw [Bool.not_eq_false, List.any_eq_true] at h
      rcases h with ⟨s, hsm, hsw⟩
      exact hs s hsm (of_decide_eq_true hsw)
    have hme : matchEntry (pyNorm u) vq
        = if vq.name = "sentiment_by_issue_type" then some (pyStrip vq.sql)
          else none := by
      unfold matchEntry
      rw [if_neg hq, if_neg (by simp [hany])]
      by_cases hn : vq.name = "sentiment_by_issue_type"
      · rw [if_pos ⟨hkw1, hkw2, hn⟩, if_pos hn]
      · rw [if_neg (fun h => hn h.2.2), if_neg hn]
    have ihl := ih (fun x hx => hnoq x (List.mem_cons_of_mem vq hx))
      (fun x hx => hnos x (List.mem_cons_of_mem vq hx))
    by_cases hn : vq.name = "sentiment_by_issue_type"
    · simp [List.findSome?_cons, List.find?_cons, hme, hn]
    · simp only [List.findSome?_cons, List.find?_cons, hme, if_neg hn]
      simpa [hn] using ihl

/-- Witness for `c5_keyword_fallback`: a one-entry catalog whose entry is
named `sentiment_by_issue_type`, and the unmatched text "sentiment by issue". -/
theorem c5_keyword_fallback_witness :
    try_match_verified_query
      (some [⟨"sentiment_by_issue_type", "what is the breakdown", [], " S "⟩])
      "sentiment by issue"
      = (([⟨"sentiment_by_issue_type", "what is the breakdown", [], " S "⟩] :
            List VerifiedQuery).find?
          (fun vq => vq.name = "sentiment_by_issue_type")).map
          (fun vq => pyStrip vq.sql) :=
  c5_keyword_fallback _ _ (by decide) (by decide) (by decide) (by decide)

/-! ## Orchestrator lemmas and concrete scenarios -/

/-- On a truthy verified match whose execution returns at least one row,
`process_user_message` appends the data-bearing hit turn and stops. -/
lemma process_hit_nonempty (catalog : Option (List VerifiedQuery))
    (execSql : String → Table) (remote : String → List CtxBlock → CAResponse)
    (st : ChatState) (u vsql : String)
    (hm : try_match_verified_query catalog u = some vsql) (hne : vsql ≠ "")
    (hrows : 0 < (execSql vsql).rows) :
    process_user_message catalog execSql remote st u =
      { state := { st with
          chat_history := st.chat_history ++ [verifiedHitMsg vsql (execSql vsql)] },
        remoteCalled := false, executed := [vsql] } := by
  unfold process_user_message
  rw [hm]
  simp [hne, hrows]

/-- On a matcher miss, `process_user_message` is exactly the remote
fallback with no SQL executed beforehand. -/
lemma process_miss (catalog : Option (List VerifiedQuery))
    (execSql : String → Table) (remote : String → List CtxBlock → CAResponse)
    (st : ChatState) (u : String)
    (hm : try_match_verified_query catalog u = none) :
    process_user_message catalog execSql remote st u
      = remoteFallback execSql remote st u [] := by
  unfold process_user_message
  rw [hm]

/-- A one-entry catalog whose entry answers the question "what is x" with
`SELECT 1`. -/
def sampleCatalog : Option (List VerifiedQuery) :=
  some [⟨"n", "what is x", [], "SELECT 1"⟩]

/-- A data executor whose every result is empty. -/
def sampleExecEmpty : String → Table := fun _ => { rows := 0, cols := 0 }

/-- A data executor whose every result has two rows and two columns. -/
def sampleExecData : String → Table :=
  fun _ => { rows := 2, cols := 2, lastColNumeric := true }

/-- A data executor for which only the remote-generated `SELECT 2` returns
data; every other statement (the verified `SELECT 1` included) is empty. -/
def sampleExecMix : String → Table :=
  fun s => if s = "SELECT 2" then { rows := 1, cols := 1, firstCell := "v" }
           else { rows := 0, cols := 0 }

/-- A remote analyst service that fails at the transport level. -/
def sampleRemoteErr : String → List CtxBlock → CAResponse :=
  fun _ _ => errResp "timeout"

/-- A remote analyst service that succeeds and returns the SQL `SELECT 2`
with no suggestions. -/
def sampleRemoteSql : String → List CtxBlock → CAResponse :=
  fun _ _ =>
    { error := none, text := some "t", sql := some "SELECT 2",
      suggestions := some [], response_metadata := some "", warnings := some [] }

/-! ## Claim C3 -/

/-- C3 is false on the code: the text "What is X " matches the sample
catalog entry's question exactly (case/whitespace-insensitive), yet when the
entry's SQL executes to an empty result the orchestrator falls through to
the remote analyst service (the early `return` sits inside `len(df) > 0`). -/
theorem c3_counterexample :
    pyNorm "What is X " = pyNorm "what is x" ∧
    try_match_verified_query sampleCatalog "What is X " = some "SELECT 1" ∧
    (process_user_message sampleCatalog sampleExecEmpty sampleRemoteErr {}
        "What is X ").remoteCalled = true := by
  decide

/-- C3 amended: when the submission's text exactly matches a catalog entry's
non-empty question (case/whitespace-insensitive), no earlier entry matches
first, the entry's stripped SQL is non-empty and executing it yields a
non-empty result set, the orchestrator executes exactly that SQL and never
calls the remote analyst service; when execution yields zero rows it instead
falls through to the remote service. -/
theorem c3_verified_hit (pre post : List VerifiedQuery) (e : VerifiedQuery)
    (u : String) (execSql : String → Table)
    (remote : String → List CtxBlock → CAResponse) (st : ChatState)
    (hpre : ∀ x ∈ pre, matchEntry (pyNorm u) x = none)
    (hq0 : pyNorm e.question ≠ "") (hq : pyNorm e.question = pyNorm u)
    (hne : pyStrip e.sql ≠ "")
    (hrows : 0 < (execSql (pyStrip e.sql)).rows) :
    (process_user_message (some (pre ++ e :: post)) execSql remote st u).remoteCalled
        = false ∧
    (process_user_message (some (pre ++ e :: post)) execSql remote st u).executed
        = [pyStrip e.sql] := by
  have hm : try_match_verified_query (some (pre ++ e :: post)) u
      = some (pyStrip e.sql) := by
    unfold try_match_verified_query
    exact findSome?_first _ pre e post _ hpre (matchEntry_of_question _ e hq0 hq)
  rw [process_hit_nonempty _ execSql remote st u _ hm hne hrows]
  exact ⟨rfl, rfl⟩

/-- Witness for `c3_verified_hit`: the sample catalog, an executor returning
data, and the question text with altered case and trailing whitespace. -/
theorem c3_verified_hit_witness :
    (process_user_message (some ([] ++ ⟨"n", "what is x", [], "SELECT 1"⟩ :: []))
        sampleExecData sampleRemoteErr {} "What is X ").remoteCalled = false ∧
    (process_user_message (some ([] ++ ⟨"n", "what is x", [], "SELECT 1"⟩ :: []))
        sampleExecData sampleRemoteErr {} "What is X ").executed
      = [pyStrip (VerifiedQuery.sql ⟨"n", "what is x", [], "SELECT 1"⟩)] :=
  c3_verified_hit [] [] ⟨"n", "what is x", [], "SELECT 1"⟩ "What is X "
    sampleExecData sampleRemoteErr {}
    (by intro x hx; cases hx) (by decide) (by decide) (by decide) (by decide)

/-! ## Claim C4 -/

/-- C4 is false on the code: the matcher returns the SQL string `SELECT 1`
for this submission, but because it executes to zero rows the orchestrator
falls through to the remote path, which succeeds with `SELECT 2`, executes
it to a non-empty result and appends two blocks to the previously empty
Conversation Context. -/
theorem c4_counterexample :
    try_match_verified_query sampleCatalog "what is x" = some "SELECT 1" ∧
    (process_user_message sampleCatalog sampleExecMix sampleRemoteSql {}
        "what is x").state.conversation_context ≠ [] := by
  decide

/-- C4 amended: a verified-query hit whose (non-empty) SQL executes to a
non-empty result never mutates the Conversation Context; only a hit whose
execution returns zero rows falls through to the remote path, which may
append to it. -/
theorem c4_hit_context_frame (catalog : Option (List VerifiedQuery))
    (execSql : String → Table) (remote : String → List CtxBlock → CAResponse)
    (st : ChatState) (u vsql : String)
    (hm : try_match_verified_query catalog u = some vsql) (hne : vsql ≠ "")
    (hrows : 0 < (execSql vsql).rows) :
    (process_user_message catalog execSql remote st u).state.conversation_context
      = st.conversation_context := by
  rw [process_hit_nonempty catalog execSql remote st u vsql hm hne hrows]

/-- Witness for `c4_hit_context_frame`: the sample catalog and data-bearing
executor leave the (empty) context untouched. -/
theorem c4_hit_context_frame_witness :
    (process_user_message sampleCatalog sampleExecData sampleRemoteErr {}
        "what is x").state.conversation_context
      = ChatState.conversation_context {} :=
  c4_hit_context_frame sampleCatalog sampleExecData sampleRemoteErr {}
    "what is x" "SELECT 1" (by decide) (by decide) (by decide)

/-! ## Claim C1 -/

/-- C1 is false on the code: on a matcher miss with a successful remote call
whose SQL executes to zero rows, the orchestrator does append the "no data"
turn, but the Conversation Context stays empty — `update_conversation_context`
is called only in the non-empty branch (line 830), so no two blocks are
appended. -/
theorem c1_counterexample :
    try_match_verified_query (some []) "zzz" = none ∧
    (sampleRemoteSql "zzz" []).error = none ∧
    strTruthy (sampleRemoteSql "zzz" []).sql = true ∧
    (sampleExecEmpty ((sampleRemoteSql "zzz" []).sql.getD "")).rows = 0 ∧
    (process_user_message (some []) sampleExecEmpty sampleRemoteSql {}
        "zzz").state.chat_history
      = [{ role := "assistant",
           content := "🔍 No data found. Try rephrasing your question." }] ∧
    (process_user_message (some []) sampleExecEmpty sampleRemoteSql {}
        "zzz").state.conversation_context = [] := by
  decide

/-- C1 amended: when a submission misses the matcher and the remote call
succeeds with SQL whose execution yields zero rows (and carries no
suggestions), the orchestrator appends exactly one "no data" assistant turn
— whose content is not of the error-turn form "❌ Error: ..." — executes
only that SQL, and the Conversation Context is NOT updated: the two context
blocks are appended only when execution returns at least one row. -/
theorem c1_empty_result (catalog : Option (List VerifiedQuery))
    (execSql : String → Table) (remote : String → List CtxBlock → CAResponse)
    (st : ChatState) (u : String)
    (hmiss : try_match_verified_query catalog u = none)
    (hok : (remote u st.conversation_context).error = none)
    (hsql : strTruthy (remote u st.conversation_context).sql = true)
    (hrows : (execSql ((remote u st.conversation_context).sql.getD "")).rows = 0)
    (hnos : listTruthy (remote u st.conversation_context).suggestions = false) :
    process_user_message catalog execSql remote st u =
      { state := { chat_history := st.chat_history ++
                     [{ role := "assistant",
                        content := "🔍 No data found. Try rephrasing your question." }],
                   conversation_context := st.conversation_context },
        remoteCalled := true,
        executed := [(remote u st.conversation_context).sql.getD ""] } ∧
    (∀ e : String,
      "🔍 No data found. Try rephrasing your question." ≠ "❌ Error: " ++ e) := by
  constructor
  · rw [process_miss catalog execSql remote st u hmiss]
    simp [remoteFallback, hok, hsql, hrows, hnos, add_assistant_message]
  · intro e h
    have h2 := congrArg (fun s : String => s.data.head?) h
    simp only [String.data_append, List.cons_append, List.head?_cons] at h2
    exact absurd h2 (by decide)

/-- Witness for `c1_empty_result`: empty catalog, always-empty executor and
the sample SQL-bearing remote response. -/
theorem c1_empty_result_witness :
    (process_user_message (some []) sampleExecEmpty sampleRemoteSql {} "zzz" =
      { state := { chat_history := ChatState.chat_history {} ++
                     [{ role := "assistant",
                        content := "🔍 No data found. Try rephrasing your question." }],
                   conversation_context := ChatState.conversation_context {} },
        remoteCalled := true,
        executed := [(sampleRemoteSql "zzz"
            (ChatState.conversation_context {})).sql.getD ""] }) ∧
    (∀ e : String,
      "🔍 No data found. Try rephrasing your question." ≠ "❌ Error: " ++ e) :=
  c1_empty_result (some []) sampleExecEmpty sampleRemoteSql {} "zzz"
    (by decide) (by decide) (by decide) (by decide) (by decide)

/-! ## Claim C8 -/

/-- C8: on a matcher miss whose remote call fails at the transport level
(the response carries an `error` key), the orchestrator appends exactly one
assistant turn with the error content, leaves the Conversation Context
unchanged, executes no SQL, and terminates the submission. -/
theorem c8_transport_error (catalog : Option (List VerifiedQuery))
    (execSql : String → Table) (remote : String → List CtxBlock → CAResponse)
    (st : ChatState) (u e : String)
    (hmiss : try_match_verified_query catalog u = none)
    (herr : (remote u st.conversation_context).error = some e) :
    process_user_message catalog execSql remote st u =
      { state := { chat_history := st.chat_history ++
                     [{ role := "assistant", content := "❌ Error: " ++ e }],
                   conversation_context := st.conversation_context },
        remoteCalled := true, executed := [] } := by
  rw [process_miss catalog execSql remote st u hmiss]
  simp [remoteFallback, herr, add_assistant_message]

/-- Witness for `c8_transport_error`: empty catalog and the timeout-failing
remote service, mirroring end-to-end scenario 2 of the spec. -/
theorem c8_transport_error_witness :
    process_user_message (some []) sampleExecEmpty sampleRemoteErr {} "asdkjaskjd" =
      { state := { chat_history := ChatState.chat_history {} ++
                     [{ role := "assistant", content := "❌ Error: " ++ "timeout" }],
                   conversation_context := ChatState.conversation_context {} },
        remoteCalled := true, executed := [] } :=
  c8_transport_error (some []) sampleExecEmpty sampleRemoteErr {} "asdkjaskjd"
    "timeout" (by decide) (by decide)

/-! ## Claim C9 -/

/-- `add_assistant_message` never touches the Conversation Context. -/
lemma add_assistant_message_context (st : ChatState) (m : String) :
    (add_assistant_message st m).conversation_context = st.conversation_context :=
  rfl

/-- The remote fallback either leaves the Conversation Context unchanged or
replaces it by exactly one `update_conversation_context` of it. -/
lemma remoteFallback_context (execSql : String → Table)
    (remote : String → List CtxBlock → CAResponse) (st : ChatState)
    (u : String) (acc : List String) :
    (remoteFallback execSql remote st u acc).state.conversation_context
        = st.conversation_context ∨
    (remoteFallback execSql remote st u acc).state.conversation_context
        = update_conversation_context st.conversation_context u
            (remote u st.conversation_context) := by
  unfold remoteFallback
  cases herr : (remote u st.conversation_context).error with
  | some e => left; simp [herr, add_assistant_message_context]
  | none =>
    simp only [herr]
    by_cases hsql : strTruthy (remote u st.conversation_context).sql = true
    · by_cases hrows :
          (execSql ((remote u st.conversation_context).sql.getD "")).rows > 0
      · right
        simp only [hsql, hrows, if_true, gt_iff_lt]
        split <;> rfl
      · left
        simp only [hsql, hrows, if_true, if_false, gt_iff_lt]
        split <;> rfl
    · left
      simp only [hsql, if_false, Bool.false_eq_true]
      split <;> rfl

/-- Every path of `process_user_message` either leaves the Conversation
Context unchanged or applies exactly one `update_conversation_context`. -/
lemma process_context_shape (catalog : Option (List VerifiedQuery))
    (execSql : String → Table) (remote : String → List CtxBlock → CAResponse)
    (st : ChatState) (u : String) :
    (process_user_message catalog execSql remote st u).state.conversation_context
        = st.conversation_context ∨
    (process_user_message catalog execSql remote st u).state.conversation_context
        = update_conversation_context st.conversation_context u
            (remote u st.conversation_context) := by
  cases hm : try_match_verified_query catalog u with
  | none =>
    rw [process_miss catalog execSql remote st u hm]
    exact remoteFallback_context execSql remote st u []
  | some vsql =>
    by_cases hne : vsql = ""
    · unfold process_user_message
      rw [hm]
      simp only [hne, ne_eq, not_true_eq_false, if_false]
      exact remoteFallback_context execSql remote st u []
    · by_cases hrows : 0 < (execSql vsql).rows
      · left
        rw [process_hit_nonempty catalog execSql remote st u vsql hm hne hrows]
      · unfold process_user_message
        rw [hm]
        simp only [hne, ne_eq, not_false_eq_true, if_true, gt_iff_lt, hrows, if_false]
        exact remoteFallback_context execSql remote st u [vsql]

/-- C9: the context-update operation appends exactly two entries — first a
user entry whose content is the single text block holding the user's input,
then an analyst entry whose content is exactly one text and one sql block,
each defaulting to the empty string — and touches nothing else; since every
`process_user_message` path applies it at most once, an even context length
is preserved across any submission. -/
theorem c9_context_grows_by_two (ctx : List CtxBlock) (u0 : String)
    (r : CAResponse) (catalog : Option (List VerifiedQuery))
    (execSql : String → Table) (remote : String → List CtxBlock → CAResponse)
    (st : ChatState) (u : String)
    (h : Even st.conversation_context.length) :
    update_conversation_context ctx u0 r
      = ctx ++ [⟨"user", [CtxItem.text u0]⟩,
                ⟨"analyst", [CtxItem.text (r.text.getD ""),
                             CtxItem.sqlStmt (r.sql.getD "")]⟩] ∧
    (update_conversation_context ctx u0 r).length = ctx.length + 2 ∧
    Even (process_user_message catalog execSql remote st
        u).state.conversation_context.length := by
  refine ⟨rfl, by simp [update_conversation_context], ?_⟩
  rcases process_context_shape catalog execSql remote st u with h1 | h1
  · rw [h1]; exact h
  · rw [h1]
    simp only [update_conversation_context, List.length_append]
    rcases h with ⟨k, hk⟩
    exact ⟨k + 1, by simp [hk]; omega⟩

/-- Witness for `c9_context_grows_by_two`: empty context and state, the
sample failing remote service. -/
theorem c9_context_grows_by_two_witness :
    update_conversation_context [] "q" (errResp "x")
      = [] ++ [⟨"user", [CtxItem.text "q"]⟩,
               ⟨"analyst", [CtxItem.text ((errResp "x").text.getD ""),
                            CtxItem.sqlStmt ((errResp "x").sql.getD "")]⟩] ∧
    (update_conversation_context [] "q" (errResp "x")).length
      = List.length ([] : List CtxBlock) + 2 ∧
    Even (process_user_message (some []) sampleExecEmpty sampleRemoteErr {}
        "u").state.conversation_context.length :=
  c9_context_grows_by_two [] "q" (errResp "x") (some []) sampleExecEmpty
    sampleRemoteErr {} "u" (by decide)

/-! ## Interpreter lemmas -/

/-- The texts of the `text`-typed blocks of a content list, in order. -/
def textVals (bs : List Block) : List String :=
  bs.filterMap (fun b => match b with | .text s => some s | _ => none)

/-- The block dispatch never touches the `error` field. -/
lemma foldl_applyBlock_error (bs : List Block) :
    ∀ r : CAResponse, (bs.foldl applyBlock r).error = r.error := by
  induction bs with
  | nil => intro r; rfl
  | cons b l ih =>
    intro r
    rw [List.foldl_cons, ih]
    cases b <;> rfl

/-- After walking the content list, the `text` field holds the last text
block's text, or stays at its initial value when no text block occurs. -/
lemma foldl_applyBlock_text (bs : List Block) (r : CAResponse) :
    (bs.foldl applyBlock r).text = ((textVals bs).getLast?).elim r.text some := by
  induction bs using List.reverseRecOn with
  | nil => rfl
  | append_singleton l b ih =>
    cases b with
    | text s =>
      rw [List.foldl_append]
      simp [textVals, List.filterMap_append, applyBlock, List.getLast?_concat]
    | sql st =>
      rw [List.foldl_append]
      simp [textVals, List.filterMap_append, applyBlock]
      simpa [textVals] using ih
    | suggestions items =>
      rw [List.foldl_append]
      simp [textVals, List.filterMap_append, applyBlock]
      simpa [textVals] using ih
    | other =>
      rw [List.foldl_append]
      simp [textVals, List.filterMap_append, applyBlock]
      simpa [textVals] using ih

/-- Unrecognized content blocks are ignored: walking the list with them
removed produces the same result. -/
lemma foldl_applyBlock_filter (bs : List Block) :
    ∀ r : CAResponse,
      (bs.filter (fun b => b != Block.other)).foldl applyBlock r
        = bs.foldl applyBlock r := by
  induction bs with
  | nil => intro r; rfl
  | cons b l ih =>
    intro r
    cases b with
    | text s => simpa [List.filter] using ih _
    | sql st => simpa [List.filter] using ih _
    | suggestions items => simpa [List.filter] using ih _
    | other => simpa [List.filter, applyBlock] using ih r

/-- The block dispatch keeps populated optional fields populated. -/
lemma foldl_applyBlock_isSome (bs : List Block) :
    ∀ r : CAResponse, r.text.isSome = true → r.sql.isSome = true →
      r.suggestions.isSome = true →
      (bs.foldl applyBlock r).text.isSome = true ∧
      (bs.foldl applyBlock r).sql.isSome = true ∧
      (bs.foldl applyBlock r).suggestions.isSome = true := by
  induction bs with
  | nil => intro r h1 h2 h3; exact ⟨h1, h2, h3⟩
  | cons b l ih =>
    intro r h1 h2 h3
    rw [List.foldl_cons]
    cases b with
    | text s => exact ih _ rfl h2 h3
    | sql st => exact ih _ h1 rfl h3
    | suggestions items => exact ih _ h1 h2 rfl
    | other => exact ih _ h1 h2 h3

/-- The metadata pass-through is untouched by the block dispatch. -/
lemma foldl_applyBlock_meta (bs : List Block) :
    ∀ r : CAResponse,
      (bs.foldl applyBlock r).response_metadata = r.response_metadata ∧
      (bs.foldl applyBlock r).warnings = r.warnings := by
  induction bs with
  | nil => intro r; exact ⟨rfl, rfl⟩
  | cons b l ih =>
    intro r
    rw [List.foldl_cons]
    cases b with
    | text s => exact ih _
    | sql st => exact ih _
    | suggestions items => exact ih _
    | other => exact ih _

/-- On the fully successful path the interpreter is exactly the block walk
over the initial result dict. -/
lemma query_success_eq (q : String) (hist : List CtxBlock) (env : ApiEnv)
    (ym : String) (d : RespData) (m : MsgVal) (bs : List Block)
    (h1 : env.semanticModel = some ym) (h2 : ym ≠ "") (h3 : env.raised = none)
    (h4 : env.resp.status = some 200)
    (h5 : parsedBody env.resp.content = Except.ok (JsonVal.dict d))
    (h6 : d.message = some m) (h7 : m.contentVal = some (ContentVal.list bs)) :
    query_cortex_analyst_rest_api q hist env
      = bs.foldl applyBlock (initResult d) := by
  unfold query_cortex_analyst_rest_api
  rw [h1]
  simp only [h2, if_false, h3, h4, if_true, h5, h6, h7]

/-! ## Claim C6 -/

/-- C6: when a successful response's content list holds several `text`
blocks, the normalized result's `text` equals the last one's text (last
write wins, no aggregation); blocks of unknown type are ignored — removing
them changes nothing — and cause no error. -/
theorem c6_last_text_wins (q : String) (hist : List CtxBlock) (env : ApiEnv)
    (ym : String) (d : RespData) (m : MsgVal) (bs : List Block) (t : String)
    (h1 : env.semanticModel = some ym) (h2 : ym ≠ "") (h3 : env.raised = none)
    (h4 : env.resp.status = some 200)
    (h5 : parsedBody env.resp.content = Except.ok (JsonVal.dict d))
    (h6 : d.message = some m) (h7 : m.contentVal = some (ContentVal.list bs))
    (hmany : 2 ≤ (textVals bs).length)
    (hlast : (textVals bs).getLast? = some t) :
    (query_cortex_analyst_rest_api q hist env).text = some t ∧
    (query_cortex_analyst_rest_api q hist env).error = none ∧
    query_cortex_analyst_rest_api q hist env
      = (bs.filter (fun b => b != Block.other)).foldl applyBlock (initResult d) := by
  rw [query_success_eq q hist env ym d m bs h1 h2 h3 h4 h5 h6 h7]
  refine ⟨?_, ?_, ?_⟩
  · rw [foldl_applyBlock_text, hlast]; rfl
  · rw [foldl_applyBlock_error]; rfl
  · rw [foldl_applyBlock_filter]

/-- A content list with two text blocks around an unknown-typed block. -/
def c6SampleBlocks : List Block := [Block.text "a", Block.other, Block.text "b"]

/-- A response body carrying `c6SampleBlocks` as `message.content`. -/
def c6SampleData : RespData :=
  { message := some { contentVal := some (ContentVal.list c6SampleBlocks) } }

/-- A fully successful environment delivering `c6SampleData`. -/
def c6SampleEnv : ApiEnv :=
  { semanticModel := some "model", raised := none,
    resp := { status := some 200,
              content := RespContent.already (JsonVal.dict c6SampleData) } }

/-- Witness for `c6_last_text_wins`: on `c6SampleEnv` the result keeps only
the second text block's text. -/
theorem c6_last_text_wins_witness :
    (query_cortex_analyst_rest_api "q" [] c6SampleEnv).text = some "b" ∧
    (query_cortex_analyst_rest_api "q" [] c6SampleEnv).error = none ∧
    query_cortex_analyst_rest_api "q" [] c6SampleEnv
      = (c6SampleBlocks.filter (fun b => b != Block.other)).foldl applyBlock
          (initResult c6SampleData) :=
  c6_last_text_wins "q" [] c6SampleEnv "model" c6SampleData
    { contentVal := some (ContentVal.list c6SampleBlocks) } c6SampleBlocks "b"
    rfl (by decide) rfl rfl rfl rfl rfl (by decide) (by decide)

/-! ## Claim C7 -/

/-- Appending anything to a non-empty string stays non-empty. -/
lemma append_ne_empty_left (s t : String) (hs : s ≠ "") : s ++ t ≠ "" := by
  intro h
  apply hs
  have h2 := congrArg String.data h
  rw [String.data_append] at h2
  exact String.ext (List.append_eq_nil.mp h2).1

/-- The transport-error message always carries at least its fixed prefix,
hence is never empty. -/
lemma transportErrMsg_ne (resp : ApiResp) : transportErrMsg resp ≠ "" := by
  have hbase : ∀ o : Option Nat,
      ("API request failed with status " ++ statusStr o) ≠ "" :=
    fun o => append_ne_empty_left _ _ (by decide)
  obtain ⟨status, content⟩ := resp
  cases content with
  | str raw p =>
    exact append_ne_empty_left _ _ (append_ne_empty_left _ _ (hbase status))
  | already v =>
    cases v with
    | dict d =>
      obtain ⟨msg, meta, warn⟩ := d
      cases msg with
      | none => exact hbase status
      | some m =>
        exact append_ne_empty_left _ _ (append_ne_empty_left _ _ (hbase status))
    | nonDict ty => exact hbase status

/-- C7: whenever the transport-level status is not success (while the call
itself reached the transport), the interpreter returns a dict whose `error`
is the non-empty status-and-body-derived message and which has no `sql` or
`text` key. -/
theorem c7_error_on_bad_status (q : String) (hist : List CtxBlock)
    (env : ApiEnv) (ym : String)
    (h1 : env.semanticModel = some ym) (h2 : ym ≠ "") (h3 : env.raised = none)
    (h4 : env.resp.status ≠ some 200) :
    (query_cortex_analyst_rest_api q hist env).error
        = some (transportErrMsg env.resp) ∧
    transportErrMsg env.resp ≠ "" ∧
    (query_cortex_analyst_rest_api q hist env).sql = none ∧
    (query_cortex_analyst_rest_api q hist env).text = none := by
  have hq : query_cortex_analyst_rest_api q hist env
      = errResp (transportErrMsg env.resp) := by
    unfold query_cortex_analyst_rest_api
    rw [h1]
    simp only [h2, if_false, h3, h4]
  rw [hq]
  exact ⟨rfl, transportErrMsg_ne env.resp, rfl, rfl⟩

/-- Witness for `c7_error_on_bad_status`: a 404 with a string body. -/
theorem c7_error_on_bad_status_witness :
    (query_cortex_analyst_rest_api "q" []
      { semanticModel := some "model", raised := none,
        resp := { status := some 404,
                  content := RespContent.str "oops" (Except.error "x") } }).error
      = some (transportErrMsg
          { status := some 404,
            content := RespContent.str "oops" (Except.error "x") }) ∧
    transportErrMsg
        { status := some 404,
          content := RespContent.str "oops" (Except.error "x") } ≠ "" ∧
    (query_cortex_analyst_rest_api "q" []
      { semanticModel := some "model", raised := none,
        resp := { status := some 404,
                  content := RespContent.str "oops" (Except.error "x") } }).sql
      = none ∧
    (query_cortex_analyst_rest_api "q" []
      { semanticModel := some "model", raised := none,
        resp := { status := some 404,
                  content := RespContent.str "oops" (Except.error "x") } }).text
      = none :=
  c7_error_on_bad_status "q" [] _ "model" rfl (by decide) rfl (by simp)

/-! ## Claim C10 -/

/-- C10: the remote-call wrapper is total at its boundary — for every
question, history and environment (semantic model missing, internal
exception, bad status, JSON parse failure, unexpected shape, or success) it
returns either a pure error dict (an `error` key and neither `text`, `sql`
nor `suggestions`) or a full success dict (no `error` key, with `text`,
`sql` and `suggestions` all present), so callers can branch solely on the
presence of `error`. -/
theorem c10_total_error_or_ok (q : String) (hist : List CtxBlock)
    (env : ApiEnv) :
    ((query_cortex_analyst_rest_api q hist env).error.isSome = true ∧
     (query_cortex_analyst_rest_api q hist env).text = none ∧
     (query_cortex_analyst_rest_api q hist env).sql = none ∧
     (query_cortex_analyst_rest_api q hist env).suggestions = none) ∨
    ((query_cortex_analyst_rest_api q hist env).error = none ∧
     (query_cortex_analyst_rest_api q hist env).text.isSome = true ∧
     (query_cortex_analyst_rest_api q hist env).sql.isSome = true ∧
     (query_cortex_analyst_rest_api q hist env).suggestions.isSome = true) := by
  obtain ⟨sm, raised, resp⟩ := env
  cases sm with
  | none => left; exact ⟨rfl, rfl, rfl, rfl⟩
  | some ym =>
    by_cases hym : ym = ""
    · left
      simp [query_cortex_analyst_rest_api, hym, errResp]
    · cases raised with
      | some e =>
        left
        simp [query_cortex_analyst_rest_api, hym, errResp]
      | none =>
        by_cases hst : resp.status = some 200
        · rcases hp : parsedBody resp.content with e | v
          · left
            simp [query_cortex_analyst_rest_api, hym, hst, hp, errResp]
          · cases v with
            | nonDict ty =>
              left
              simp [query_cortex_analyst_rest_api, hym, hst, hp, errResp]
            | dict d =>
              obtain ⟨msg, meta, warn⟩ := d
              cases msg with
              | none =>
                left
                simp [query_cortex_analyst_rest_api, hym, hst, hp, errResp]
              | some m =>
                obtain ⟨cv, asStr⟩ := m
                cases cv with
                | none =>
                  left
                  simp [query_cortex_analyst_rest_api, hym, hst, hp, errResp]
                | some cval =>
                  cases cval with
                  | nonList ty =>
                    left
                    simp [query_cortex_analyst_rest_api, hym, hst, hp, errResp]
                  | list bs =>
                    right
                    have hq := query_success_eq q hist
                      ⟨some ym, none, resp⟩ ym
                      ⟨some ⟨some (ContentVal.list bs), asStr⟩, meta, warn⟩
                      ⟨some (ContentVal.list bs), asStr⟩ bs
                      rfl hym rfl hst hp rfl rfl
                    rw [hq]
                    have hiso := foldl_applyBlock_isSome bs
                      (initResult ⟨some ⟨some (ContentVal.list bs), asStr⟩, meta, warn⟩)
                      rfl rfl rfl
                    refine ⟨?_, hiso.1, hiso.2.1, hiso.2.2⟩
                    rw [foldl_applyBlock_error]
                    rfl
        · left
          simp [query_cortex_analyst_rest_api, hym, hst, errResp]

end VikSnow
